import Mathlib

/-!
# Verification of the IMU preintegration node of SC-LIO-SAM

Shallow embedding of `src/SC-LIO-SAM/src/imuPreintegration.cpp`
(class `IMUPreintegration`): the two-queue / two-preintegrator state, the
lidar-odometry handler `odometryHandler`, the inertial handler `imuHandler`,
`failureDetection`, `resetParams` and the graph-reset logic.

Modelling conventions:
* Machine `double`/`float` arithmetic is modelled over `ℚ` (exact arithmetic;
  the claims under study are structural, not about rounding).
* The GTSAM library (ISAM2, `predict`, `calculateEstimate`,
  `marginalCovariance`) is an external dependency, not part of this
  repository's source.  The ISAM2 smoother is modelled symbolically as the
  trace of `update` calls it received; the numerical results it returns
  (`calculateEstimate`, `marginalCovariance`) and the preintegrator's
  `predict` are supplied by an abstract `Oracle` parameter, so every theorem
  holds for every possible numerical behaviour of the library.
* `gtsam::PreintegratedImuMeasurements` is modelled by its reference bias and
  the ordered list of `(acc, gyr, dt)` measurements fed to
  `integrateMeasurement` since the last reset.
* Euclidean norms (`Eigen::Vector3f::norm`) are modelled through the squared
  norm `normSq` over `ℚ`; theorems relate it to `Real.sqrt` where a claim
  speaks of the norm itself.
* `imuConverter` lives in `utility.h`, which is not part of the sources under
  verification; the handlers therefore receive the already-converted sample
  (`ImuMsg`), exactly what `thisImu` is in the C++ code.
-/

/-- 3-vector of rationals (models `gtsam::Vector3` / `Eigen::Vector3`). -/
structure V3 where
  x : ℚ
  y : ℚ
  z : ℚ
deriving DecidableEq

/-- Quaternion components (models `gtsam::Rot3` built from a quaternion). -/
structure Quat where
  w : ℚ
  x : ℚ
  y : ℚ
  z : ℚ
deriving DecidableEq

/-- Rigid pose: rotation (quaternion) plus translation (`gtsam::Pose3`). -/
structure Pose3 where
  rot : Quat
  trans : V3
deriving DecidableEq

/-- IMU bias: accelerometer part and gyroscope part
(`gtsam::imuBias::ConstantBias`). -/
structure Bias where
  acc : V3
  gyr : V3
deriving DecidableEq

/-- Pose plus linear velocity (`gtsam::NavState`). -/
structure NavState where
  pose : Pose3
  vel : V3
deriving DecidableEq

def zeroV3 : V3 := ⟨0, 0, 0⟩

def idQuat : Quat := ⟨1, 0, 0, 0⟩

def zeroBias : Bias := ⟨zeroV3, zeroV3⟩

def V3.add (a b : V3) : V3 := ⟨a.x + b.x, a.y + b.y, a.z + b.z⟩

def V3.neg (a : V3) : V3 := ⟨-a.x, -a.y, -a.z⟩

def V3.smul (c : ℚ) (a : V3) : V3 := ⟨c * a.x, c * a.y, c * a.z⟩

/-- Cross product of 3-vectors. -/
def cross (a b : V3) : V3 :=
  ⟨a.y * b.z - a.z * b.y, a.z * b.x - a.x * b.z, a.x * b.y - a.y * b.x⟩

/-- Squared Euclidean norm of a 3-vector. -/
def normSq (v : V3) : ℚ := v.x ^ 2 + v.y ^ 2 + v.z ^ 2

/-- Hamilton product of two quaternions (composition of rotations,
as in `gtsam::Rot3` multiplication). -/
def quatMul (a b : Quat) : Quat :=
  ⟨a.w * b.w - a.x * b.x - a.y * b.y - a.z * b.z,
   a.w * b.x + a.x * b.w + a.y * b.z - a.z * b.y,
   a.w * b.y - a.x * b.z + a.y * b.w + a.z * b.x,
   a.w * b.z + a.x * b.y - a.y * b.x + a.z * b.w⟩

/-- Action of a (unit) quaternion on a vector:
`v + 2 w (u × v) + 2 (u × (u × v))` with `u` the vector part. -/
def rotVec (q : Quat) (v : V3) : V3 :=
  let u : V3 := ⟨q.x, q.y, q.z⟩
  let t := cross u v
  (v.add ((V3.smul (2 * q.w) t))).add (V3.smul 2 (cross u t))

/-- `gtsam::Pose3::compose`: `(R₁, t₁) ∘ (R₂, t₂) = (R₁R₂, t₁ + R₁ t₂)`. -/
def Pose3.compose (p q : Pose3) : Pose3 :=
  ⟨quatMul p.rot q.rot, p.trans.add (rotVec p.rot q.trans)⟩

/-- C-style truncation of a rational to an integer (the `(int)` cast applied
to `odomMsg->pose.covariance[0]`). -/
def ratTruncToInt (q : ℚ) : ℤ := if 0 ≤ q then ⌊q⌋ else ⌈q⌉

/-- An IMU sample as it sits in the two queues: timestamp plus converted
linear acceleration and angular velocity (`sensor_msgs::Imu` after
`imuConverter`). -/
structure ImuMsg where
  stamp : ℚ
  acc : V3
  gyr : V3
deriving DecidableEq

/-- The incoming lidar odometry message (`nav_msgs::Odometry`): timestamp,
position, orientation quaternion, and the first element of the pose
covariance (the degeneracy channel). -/
structure OdomMsg where
  stamp : ℚ
  pos : V3
  quat : Quat
  cov0 : ℚ
deriving DecidableEq

/-- Fixed configuration read from the parameter server: the extrinsic
translation `extTrans` and the bias random-walk densities. -/
structure Config where
  extTrans : V3
  imuAccBiasN : ℚ
  imuGyrBiasN : ℚ
deriving DecidableEq

/-- `imu2Lidar`: identity rotation, translation `-extTrans`
(line 226 of the source). -/
def imu2Lidar (cfg : Config) : Pose3 :=
  ⟨idQuat, ⟨-cfg.extTrans.x, -cfg.extTrans.y, -cfg.extTrans.z⟩⟩

/-- `lidar2Imu`: identity rotation, translation `+extTrans`
(line 228 of the source). -/
def lidar2Imu (cfg : Config) : Pose3 :=
  ⟨idQuat, ⟨cfg.extTrans.x, cfg.extTrans.y, cfg.extTrans.z⟩⟩

/-- Symbols of the factor graph: `X(k)` pose, `V(k)` velocity, `B(k)` bias. -/
inductive GSym
  | X (k : Nat)
  | V (k : Nat)
  | B (k : Nat)
deriving DecidableEq

/-- A marginal covariance matrix returned by the smoother (opaque payload). -/
abbrev Cov := List (List ℚ)

/-- Noise models attached to factors. `diagSqrtScaled dT base` records
`Sigmas(sqrt(deltaTij) * noiseModelBetweenBias)` symbolically. -/
inductive Noise
  | diagSigmas (sigmas : List ℚ)
  | isoSigma (dim : Nat) (sigma : ℚ)
  | diagSqrtScaled (deltaT : ℚ) (base : List ℚ)
  | gaussianCov (cov : Cov)
deriving DecidableEq

/-- The preintegrator (`gtsam::PreintegratedImuMeasurements`): the bias set by
the last `resetIntegrationAndSetBias` and the ordered measurements fed to
`integrateMeasurement` since then. -/
structure Preint where
  biasRef : Bias
  meas : List (V3 × V3 × ℚ)
deriving DecidableEq

def Preint.resetIntegrationAndSetBias (_p : Preint) (b : Bias) : Preint :=
  ⟨b, []⟩

def Preint.integrateMeasurement (p : Preint) (acc gyr : V3) (dt : ℚ) : Preint :=
  ⟨p.biasRef, p.meas ++ [(acc, gyr, dt)]⟩

/-- `deltaTij()`: total integrated time. -/
def Preint.deltaTij (p : Preint) : ℚ :=
  (p.meas.map fun m => m.2.2).sum

/-- Factors added to the graph by `odometryHandler`. -/
inductive Factor
  | priorPose (s : GSym) (p : Pose3) (n : Noise)
  | priorVel (s : GSym) (v : V3) (n : Noise)
  | priorBias (s : GSym) (b : Bias) (n : Noise)
  | imuFactor (x1 v1 x2 v2 b1 : GSym) (pim : Preint)
  | biasBetween (b1 b2 : GSym) (mean : Bias) (n : Noise)
deriving DecidableEq

/-- Initial values inserted alongside the factors. -/
inductive GVal
  | iPose (s : GSym) (p : Pose3)
  | iVel (s : GSym) (v : V3)
  | iBias (s : GSym) (b : Bias)
deriving DecidableEq

structure ISAM2Params where
  relinearizeThreshold : ℚ
  relinearizeSkip : Nat
deriving DecidableEq

/-- The ISAM2 smoother, modelled symbolically as its construction parameters
plus the trace of `update(factors, values)` calls applied to it. -/
structure ISAM2 where
  params : ISAM2Params
  updates : List (List Factor × List GVal)
deriving DecidableEq

def ISAM2.update (g : ISAM2) (f : List Factor) (v : List GVal) : ISAM2 :=
  ⟨g.params, g.updates ++ [(f, v)]⟩

/-- `resetOptimization()` builds a fresh ISAM2 with
`relinearizeThreshold = 0.1`, `relinearizeSkip = 1`. -/
def freshISAM2 : ISAM2 := ⟨⟨1/10, 1⟩, []⟩

/-- Numerical results of the external GTSAM library, abstracted: marginal
covariances, the estimate read back after `calculateEstimate`, and the
preintegrator's `predict`.  Theorems quantify over all oracles. -/
structure Oracle where
  margCov : ISAM2 → GSym → Cov
  calcEstimate : ISAM2 → Nat → Pose3 × V3 × Bias
  predict : Preint → NavState → Bias → NavState

/-- The mutable state of `IMUPreintegration`. -/
structure State where
  systemInitialized : Bool
  imuQueOpt : List ImuMsg
  imuQueImu : List ImuMsg
  prevPose : Pose3
  prevVel : V3
  prevState : NavState
  prevBias : Bias
  prevStateOdom : NavState
  prevBiasOdom : Bias
  doneFirstOpt : Bool
  lastImuT_imu : ℚ
  lastImuT_opt : ℚ
  optimizer : ISAM2
  graphFactors : List Factor
  graphValues : List GVal
  key : Nat
  imuIntegratorOpt : Preint
  imuIntegratorImu : Preint
deriving DecidableEq

/-- The state set up by the constructor: flags false, timestamps `-1`,
`key = 1`, both preintegrators holding the zero prior bias. -/
def initState : State where
  systemInitialized := false
  imuQueOpt := []
  imuQueImu := []
  prevPose := ⟨idQuat, zeroV3⟩
  prevVel := zeroV3
  prevState := ⟨⟨idQuat, zeroV3⟩, zeroV3⟩
  prevBias := zeroBias
  prevStateOdom := ⟨⟨idQuat, zeroV3⟩, zeroV3⟩
  prevBiasOdom := zeroBias
  doneFirstOpt := false
  lastImuT_imu := -1
  lastImuT_opt := -1
  optimizer := ⟨⟨1/10, 10⟩, []⟩
  graphFactors := []
  graphValues := []
  key := 1
  imuIntegratorOpt := ⟨zeroBias, []⟩
  imuIntegratorImu := ⟨zeroBias, []⟩

/-- `resetParams()` (lines 275-280). -/
def resetParams (s : State) : State :=
  { s with lastImuT_imu := -1, doneFirstOpt := false, systemInitialized := false }

/-- `failureDetection` (lines 469-487), with norms compared through their
squares: `‖v‖ > 30 ↔ ‖v‖² > 900`, `‖b‖ > 1 ↔ ‖b‖² > 1`. -/
def failureDetection (velCur : V3) (biasCur : Bias) : Bool :=
  if normSq velCur > 900 then true
  else if normSq biasCur.acc > 1 ∨ normSq biasCur.gyr > 1 then true
  else false

/-- Noise constants set up in the constructor (lines 246-253). -/
def priorPoseNoise : Noise := Noise.diagSigmas [1/100, 1/100, 1/100, 1/100, 1/100, 1/100]

def priorVelNoise : Noise := Noise.isoSigma 3 10000

def priorBiasNoise : Noise := Noise.isoSigma 6 (1/1000)

def correctionNoise : Noise := Noise.diagSigmas [1/20, 1/20, 1/20, 1/10, 1/10, 1/10]

def correctionNoise2 : Noise := Noise.diagSigmas [1, 1, 1, 1, 1, 1]

def noiseModelBetweenBias (cfg : Config) : List ℚ :=
  [cfg.imuAccBiasN, cfg.imuAccBiasN, cfg.imuAccBiasN,
   cfg.imuGyrBiasN, cfg.imuGyrBiasN, cfg.imuGyrBiasN]

/-- The initialization pop loop (lines 313-322): pop front entries with
timestamp `< t`, recording each popped timestamp into `lastImuT_opt`.
Returns the remaining queue and the final `lastImuT_opt`. -/
def drainInit : List ImuMsg → ℚ → ℚ → List ImuMsg × ℚ
  | [], last, _ => ([], last)
  | m :: rest, last, t =>
    if m.stamp < t then drainInit rest m.stamp t else (m :: rest, last)

/-- The optimization drain loop (lines 383-400): pop front entries with
timestamp `< t`, integrating each into the optimization preintegrator with
`dt = (lastImuT_opt < 0) ? 1/500 : stamp - lastImuT_opt`.  Returns the
remaining queue, the updated preintegrator and the final `lastImuT_opt`. -/
def drainIntegrate : List ImuMsg → Preint → ℚ → ℚ → List ImuMsg × Preint × ℚ
  | [], p, last, _ => ([], p, last)
  | m :: rest, p, last, t =>
    if m.stamp < t then
      drainIntegrate rest
        (p.integrateMeasurement m.acc m.gyr (if last < 0 then 1/500 else m.stamp - last))
        m.stamp t
    else (m :: rest, p, last)

/-- The `imuQueImu` drain loop (lines 441-446): pop front entries with
timestamp `< t`, tracking `lastImuQT` (initially `-1`). -/
def drainImuQ : List ImuMsg → ℚ → ℚ → List ImuMsg × ℚ
  | [], last, _ => ([], last)
  | m :: rest, last, t =>
    if m.stamp < t then drainImuQ rest m.stamp t else (m :: rest, last)

/-- The re-propagation loop (lines 453-462): integrate every sample of the
queue in order with `dt = (lastImuQT < 0) ? 1/500 : stamp - lastImuQT`. -/
def repropagate : List ImuMsg → Preint → ℚ → Preint
  | [], p, _ => p
  | m :: rest, p, last =>
    repropagate rest
      (p.integrateMeasurement m.acc m.gyr (if last < 0 then 1/500 else m.stamp - last))
      m.stamp

/-- The per-sample `dt` sequence those two loops produce, written directly:
`dtList l last` pairs each sample of `l` with its computed time step. -/
def dtList : List ImuMsg → ℚ → List (V3 × V3 × ℚ)
  | [], _ => []
  | m :: rest, last =>
    (m.acc, m.gyr, if last < 0 then 1/500 else m.stamp - last) :: dtList rest m.stamp

/-- Which exit the lidar handler took. -/
inductive Branch
  | droppedEmpty
  | initialized
  | failed
  | normal
deriving DecidableEq

/-- The initialization branch of `odometryHandler` (lines 308-350):
`resetOptimization`, pop old IMU messages, priors on `X(0), V(0), B(0)`,
one `update`, reset both preintegrators with the zero bias, `key = 1`. -/
def initBranch (cfg : Config) (msg : OdomMsg) (s : State) : State :=
  let lidarPose : Pose3 := ⟨msg.quat, msg.pos⟩
  let d := drainInit s.imuQueOpt s.lastImuT_opt msg.stamp
  let prevPose := lidarPose.compose (lidar2Imu cfg)
  let factors := [Factor.priorPose (GSym.X 0) prevPose priorPoseNoise,
                  Factor.priorVel (GSym.V 0) zeroV3 priorVelNoise,
                  Factor.priorBias (GSym.B 0) zeroBias priorBiasNoise]
  let values := [GVal.iPose (GSym.X 0) prevPose,
                 GVal.iVel (GSym.V 0) zeroV3,
                 GVal.iBias (GSym.B 0) zeroBias]
  { s with imuQueOpt := d.1
           lastImuT_opt := d.2
           prevPose := prevPose
           prevVel := zeroV3
           prevBias := zeroBias
           optimizer := ISAM2.update freshISAM2 factors values
           graphFactors := []
           graphValues := []
           imuIntegratorImu := s.imuIntegratorImu.resetIntegrationAndSetBias zeroBias
           imuIntegratorOpt := s.imuIntegratorOpt.resetIntegrationAndSetBias zeroBias
           key := 1
           systemInitialized := true }

/-- The `key == 100` graph-reset block (lines 353-380): capture the three
marginal covariances, rebuild the smoother, seed Gaussian priors at index 0
on the saved estimate, one `update`, `key = 1`. -/
def graphReset (o : Oracle) (s : State) : State :=
  let pn := Noise.gaussianCov (o.margCov s.optimizer (GSym.X (s.key - 1)))
  let vn := Noise.gaussianCov (o.margCov s.optimizer (GSym.V (s.key - 1)))
  let bn := Noise.gaussianCov (o.margCov s.optimizer (GSym.B (s.key - 1)))
  let factors := [Factor.priorPose (GSym.X 0) s.prevPose pn,
                  Factor.priorVel (GSym.V 0) s.prevVel vn,
                  Factor.priorBias (GSym.B 0) s.prevBias bn]
  let values := [GVal.iPose (GSym.X 0) s.prevPose,
                 GVal.iVel (GSym.V 0) s.prevVel,
                 GVal.iBias (GSym.B 0) s.prevBias]
  { s with optimizer := ISAM2.update freshISAM2 factors values
           graphFactors := []
           graphValues := []
           key := 1 }

/-- Steps 1 and the optimization of `odometryHandler` (lines 383-429):
drain `imuQueOpt` into the optimization preintegrator, add the IMU factor,
the bias between-factor and the lidar pose prior, insert predicted values,
update twice, read back the estimate, reset the optimization preintegrator
with the new bias. -/
def optimizeStep (o : Oracle) (cfg : Config) (msg : OdomMsg) (s : State) : State :=
  let degenerate : Bool := decide (ratTruncToInt msg.cov0 = 1)
  let lidarPose : Pose3 := ⟨msg.quat, msg.pos⟩
  let d := drainIntegrate s.imuQueOpt s.imuIntegratorOpt s.lastImuT_opt msg.stamp
  let pOpt := d.2.1
  let curPose := lidarPose.compose (lidar2Imu cfg)
  let propState := o.predict pOpt s.prevState s.prevBias
  let k := s.key
  let factors := [Factor.imuFactor (GSym.X (k-1)) (GSym.V (k-1)) (GSym.X k) (GSym.V k) (GSym.B (k-1)) pOpt,
                  Factor.biasBetween (GSym.B (k-1)) (GSym.B k) zeroBias
                    (Noise.diagSqrtScaled pOpt.deltaTij (noiseModelBetweenBias cfg)),
                  Factor.priorPose (GSym.X k) curPose
                    (if degenerate then correctionNoise2 else correctionNoise)]
  let values := [GVal.iPose (GSym.X k) propState.pose,
                 GVal.iVel (GSym.V k) propState.vel,
                 GVal.iBias (GSym.B k) s.prevBias]
  let opt2 := ISAM2.update (ISAM2.update s.optimizer factors values) [] []
  let est := o.calcEstimate opt2 k
  { s with imuQueOpt := d.1
           lastImuT_opt := d.2.2
           optimizer := opt2
           graphFactors := []
           graphValues := []
           prevPose := est.1
           prevVel := est.2.1
           prevState := ⟨est.1, est.2.1⟩
           prevBias := est.2.2
           imuIntegratorOpt := pOpt.resetIntegrationAndSetBias est.2.2 }

/-- Step 2 of `odometryHandler` (lines 437-463): seed the forward propagator,
drain `imuQueImu`, and - only if the queue is then non-empty - reset the
forward preintegrator with the optimized bias and re-integrate the remaining
samples in order. -/
def handoffStep (t : ℚ) (s : State) : State :=
  let s1 := { s with prevStateOdom := s.prevState, prevBiasOdom := s.prevBias }
  let d := drainImuQ s1.imuQueImu (-1) t
  if d.1 = [] then
    { s1 with imuQueImu := d.1 }
  else
    { s1 with imuQueImu := d.1
              imuIntegratorImu :=
                repropagate d.1
                  (s1.imuIntegratorImu.resetIntegrationAndSetBias s1.prevBiasOdom) d.2 }

/-- The initialized part of `odometryHandler`: optimize, failure check
(`resetParams` and return on failure), hand off, `++key`,
`doneFirstOpt = true`. -/
def processAfterReset (o : Oracle) (cfg : Config) (msg : OdomMsg) (s : State) :
    State × Branch :=
  let s2 := optimizeStep o cfg msg s
  if failureDetection s2.prevVel s2.prevBias then
    (resetParams s2, Branch.failed)
  else
    let s3 := handoffStep msg.stamp s2
    ({ s3 with key := s3.key + 1, doneFirstOpt := true }, Branch.normal)

/-- `odometryHandler` (lines 287-467). -/
def odometryHandler (o : Oracle) (cfg : Config) (msg : OdomMsg) (s : State) :
    State × Branch :=
  if s.imuQueOpt = [] then (s, Branch.droppedEmpty)
  else if s.systemInitialized = false then (initBranch cfg msg s, Branch.initialized)
  else processAfterReset o cfg msg (if s.key = 100 then graphReset o s else s)

/-- The odometry message emitted by `imuHandler`. -/
structure OdomOut where
  stamp : ℚ
  pos : V3
  quat : Quat
  linVel : V3
  angVel : V3
deriving DecidableEq

/-- `imuHandler` (lines 493-544): enqueue the converted sample on both
queues; if the first optimization is done, compute `dt`, integrate into the
forward preintegrator, `predict` from `(prevStateOdom, prevBiasOdom)`,
compose with `imu2Lidar` and emit. -/
def imuHandler (o : Oracle) (cfg : Config) (msg : ImuMsg) (s : State) :
    State × Option OdomOut :=
  let s0 := { s with imuQueOpt := s.imuQueOpt ++ [msg]
                     imuQueImu := s.imuQueImu ++ [msg] }
  if s0.doneFirstOpt = false then (s0, none)
  else
    let dt := if s0.lastImuT_imu < 0 then 1/500 else msg.stamp - s0.lastImuT_imu
    let p := s0.imuIntegratorImu.integrateMeasurement msg.acc msg.gyr dt
    let currentState := o.predict p s0.prevStateOdom s0.prevBiasOdom
    let lidarPose := currentState.pose.compose (imu2Lidar cfg)
    ({ s0 with lastImuT_imu := msg.stamp, imuIntegratorImu := p },
     some { stamp := msg.stamp
            pos := lidarPose.trans
            quat := lidarPose.rot
            linVel := currentState.vel
            angVel := ⟨msg.gyr.x + s0.prevBiasOdom.gyr.x,
                       msg.gyr.y + s0.prevBiasOdom.gyr.y,
                       msg.gyr.z + s0.prevBiasOdom.gyr.z⟩ })

/-! ## Concrete instances for witnesses and counterexamples -/

/-- A concrete oracle: the optimized estimate has zero pose and velocity and
a small non-zero accelerometer bias, so the failure check passes. -/
def oracleC : Oracle where
  margCov := fun _ _ => [[1]]
  calcEstimate := fun _ _ => (⟨idQuat, zeroV3⟩, zeroV3, ⟨⟨1/10, 0, 0⟩, zeroV3⟩)
  predict := fun _ st _ => st

/-- A concrete oracle whose optimized velocity estimate has norm 31 > 30,
so the failure check fires. -/
def oracleFail : Oracle where
  margCov := fun _ _ => [[1]]
  calcEstimate := fun _ _ => (⟨idQuat, zeroV3⟩, ⟨31, 0, 0⟩, zeroBias)
  predict := fun _ st _ => st

def cfgC : Config := ⟨⟨1, 2, 3⟩, 1/1000, 2/1000⟩

/-- A sample stamped before the lidar pose `odomC`. -/
def imuOld : ImuMsg := ⟨1/2, ⟨1, 2, 3⟩, ⟨4, 5, 6⟩⟩

/-- A sample stamped after the lidar pose `odomC`. -/
def imuNew : ImuMsg := ⟨2, ⟨7, 8, 9⟩, ⟨1, 1, 1⟩⟩

def odomC : OdomMsg := ⟨1, ⟨0, 0, 0⟩, idQuat, 0⟩

/-- Initialized state whose `imuQueImu` still holds a sample newer than the
lidar timestamp. -/
def stateC : State :=
  { initState with systemInitialized := true, imuQueOpt := [imuOld],
                   imuQueImu := [imuOld, imuNew] }

/-- Initialized state whose `imuQueImu` holds only samples older than the
lidar timestamp, so the hand-off drain empties it. -/
def stateEmptyQimu : State :=
  { initState with systemInitialized := true, imuQueOpt := [imuOld], imuQueImu := [imuOld] }

/-- `stateC` with the keyframe counter at the reset threshold. -/
def stateK100 : State := { stateC with key := 100 }

/-- `stateC` with both samples still queued for optimization. -/
def stateQ : State := { stateC with imuQueOpt := [imuOld, imuNew] }

/-- State after the first optimization whose previous forward-path timestamp
equals the next sample timestamp, producing `dt = 0`. -/
def stateDt0 : State := { stateC with doneFirstOpt := true, lastImuT_imu := 2 }

/-- State after the first optimization with `lastImuT_imu` still at `-1`. -/
def stateBoot : State := { stateC with doneFirstOpt := true }

/-! ## Helper lemmas -/

theorem repropagate_eq (l : List ImuMsg) (p : Preint) (last : ℚ) :
    repropagate l p last = ⟨p.biasRef, p.meas ++ dtList l last⟩ := by
  induction l generalizing p last with
  | nil => simp [repropagate, dtList]
  | cons m rest ih =>
      simp [repropagate, dtList, ih, Preint.integrateMeasurement]

theorem drainIntegrate_preint (l : List ImuMsg) (p : Preint) (last t : ℚ) :
    (drainIntegrate l p last t).2.1 =
      ⟨p.biasRef, p.meas ++ dtList (l.takeWhile fun m => decide (m.stamp < t)) last⟩ := by
  induction l generalizing p last with
  | nil => simp [drainIntegrate, dtList]
  | cons m rest ih =>
      by_cases h : m.stamp < t
      · simp [drainIntegrate, h, ih, Preint.integrateMeasurement, List.takeWhile_cons, dtList]
      · simp [drainIntegrate, h, List.takeWhile_cons, dtList]

theorem drainInit_ge (l : List ImuMsg) (last t : ℚ)
    (hs : List.Pairwise (fun a b => a.stamp ≤ b.stamp) l) :
    ∀ m ∈ (drainInit l last t).1, t ≤ m.stamp := by
  induction l generalizing last with
  | nil => simp [drainInit]
  | cons a rest ih =>
      rw [List.pairwise_cons] at hs
      by_cases h : a.stamp < t
      · simpa [drainInit, h] using ih a.stamp hs.2
      · intro m hm
        rw [drainInit, if_neg h] at hm
        rcases List.mem_cons.mp hm with rfl | hm
        · exact le_of_not_lt h
        · exact le_trans (le_of_not_lt h) (hs.1 m hm)

theorem drainIntegrate_ge (l : List ImuMsg) (p : Preint) (last t : ℚ)
    (hs : List.Pairwise (fun a b => a.stamp ≤ b.stamp) l) :
    ∀ m ∈ (drainIntegrate l p last t).1, t ≤ m.stamp := by
  induction l generalizing p last with
  | nil => simp [drainIntegrate]
  | cons a rest ih =>
      rw [List.pairwise_cons] at hs
      by_cases h : a.stamp < t
      · simpa [drainIntegrate, h] using
          ih (p.integrateMeasurement a.acc a.gyr (if last < 0 then 1/500 else a.stamp - last))
            a.stamp hs.2
      · intro m hm
        rw [drainIntegrate, if_neg h] at hm
        rcases List.mem_cons.mp hm with rfl | hm
        · exact le_of_not_lt h
        · exact le_trans (le_of_not_lt h) (hs.1 m hm)

theorem quatMul_idQuat (q : Quat) : quatMul q idQuat = q := by
  cases q
  simp [quatMul, idQuat]

theorem rotVec_neg (q : Quat) (v : V3) : rotVec q (V3.neg v) = V3.neg (rotVec q v) := by
  cases q
  cases v
  simp only [rotVec, cross, V3.neg, V3.add, V3.smul, V3.mk.injEq]
  refine ⟨by ring, by ring, by ring⟩

theorem V3_add_neg_cancel (a b : V3) : (a.add b).add (V3.neg b) = a := by
  cases a
  cases b
  simp only [V3.add, V3.neg, V3.mk.injEq]
  refine ⟨by ring, by ring, by ring⟩

theorem compose_lidar2Imu_imu2Lidar (cfg : Config) (p : Pose3) :
    (p.compose (lidar2Imu cfg)).compose (imu2Lidar cfg) = p := by
  cases p with
  | mk r t =>
      simp only [Pose3.compose, lidar2Imu, imu2Lidar, quatMul_idQuat, Pose3.mk.injEq, true_and]
      have hneg : (⟨-cfg.extTrans.x, -cfg.extTrans.y, -cfg.extTrans.z⟩ : V3) =
          V3.neg ⟨cfg.extTrans.x, cfg.extTrans.y, cfg.extTrans.z⟩ := by
        simp [V3.neg]
      rw [hneg, rotVec_neg, V3_add_neg_cancel]

/-- C9: the extrinsic pose transforms `lidar2Imu` and `imu2Lidar` carry the
identity rotation with translations `+extTrans` and `-extTrans` respectively;
composing any pose first with `lidar2Imu` and then with `imu2Lidar` gives the
pose back, and composition with either transform leaves the pose's rotation
untouched (the rotational extrinsics never enter pose composition). -/
theorem extrinsics_translation_only (cfg : Config) (p : Pose3) :
    (lidar2Imu cfg).rot = idQuat ∧ (imu2Lidar cfg).rot = idQuat ∧
    (lidar2Imu cfg).trans = cfg.extTrans ∧
    (imu2Lidar cfg).trans = V3.neg cfg.extTrans ∧
    (p.compose (lidar2Imu cfg)).compose (imu2Lidar cfg) = p ∧
    (p.compose (lidar2Imu cfg)).rot = p.rot ∧
    (p.compose (imu2Lidar cfg)).rot = p.rot := by
  refine ⟨rfl, rfl, ?_, ?_, compose_lidar2Imu_imu2Lidar cfg p, ?_, ?_⟩
  · cases hc : cfg.extTrans
    simp [lidar2Imu, hc]
  · cases hc : cfg.extTrans
    simp [imu2Lidar, V3.neg, hc]
  · simp [Pose3.compose, lidar2Imu, quatMul_idQuat]
  · simp [Pose3.compose, imu2Lidar, quatMul_idQuat]

theorem failureDetection_iff_sq (v : V3) (b : Bias) :
    failureDetection v b = true ↔
      (900 < normSq v ∨ 1 < normSq b.acc ∨ 1 < normSq b.gyr) := by
  unfold failureDetection
  split_ifs with h1 h2
  · simp [h1]
  · simpa [h1] using h2
  · push_neg at h2
    refine ⟨fun h => absurd h (by simp), ?_⟩
    rintro (h | h | h)
    · exact absurd h h1
    · exact absurd h (not_lt.mpr h2.1)
    · exact absurd h (not_lt.mpr h2.2)

theorem lt_sqrt_ratCast (c : ℚ) (q : ℚ) (hc : 0 ≤ c) :
    (c : ℝ) < Real.sqrt (q : ℝ) ↔ c ^ 2 < q := by
  rw [Real.lt_sqrt (by exact_mod_cast hc)]
  exact_mod_cast Iff.rfl

/-- C4: `failureDetection` reports failure exactly when the velocity norm
exceeds 30 or either bias norm exceeds 1; and whenever the check fires inside
`odometryHandler`, the handler applies `resetParams` to the post-optimization
state and returns immediately with the `failed` branch. -/
theorem failureDetection_spec :
    (∀ v b, failureDetection v b = true ↔
      (30 < Real.sqrt ((normSq v : ℚ) : ℝ) ∨
       1 < Real.sqrt ((normSq b.acc : ℚ) : ℝ) ∨
       1 < Real.sqrt ((normSq b.gyr : ℚ) : ℝ))) ∧
    (∀ (o : Oracle) (cfg : Config) (msg : OdomMsg) (s : State),
      s.systemInitialized = true → s.imuQueOpt ≠ [] →
      failureDetection
        (optimizeStep o cfg msg (if s.key = 100 then graphReset o s else s)).prevVel
        (optimizeStep o cfg msg (if s.key = 100 then graphReset o s else s)).prevBias = true →
      odometryHandler o cfg msg s =
        (resetParams (optimizeStep o cfg msg (if s.key = 100 then graphReset o s else s)),
         Branch.failed)) := by
  constructor
  · intro v b
    rw [failureDetection_iff_sq]
    rw [show ((30 : ℝ) = ((30 : ℚ) : ℝ)) by norm_num,
        show ((1 : ℝ) = ((1 : ℚ) : ℝ)) by norm_num]
    rw [lt_sqrt_ratCast 30 _ (by norm_num), lt_sqrt_ratCast 1 _ (by norm_num),
        lt_sqrt_ratCast 1 _ (by norm_num)]
    norm_num
  · intro o cfg msg s hinit hne hfail
    rw [odometryHandler, if_neg hne, if_neg (by simp [hinit]), processAfterReset]
    simp only [hfail, if_true]

/-- C10: `imuHandler` touches `lastImuT_imu` (and the forward preintegrator)
only after the `doneFirstOpt` guard passes; `resetParams` puts
`lastImuT_imu` back to `-1` (as does the constructor); consequently, whenever
`lastImuT_imu < 0` - in particular right after system start or a
failure-triggered reset - the first sample integrated by the forward path
uses the bootstrap `dt = 1/500`, regardless of elapsed time. -/
theorem bootstrap_dt_after_reset :
    (∀ s : State, (resetParams s).lastImuT_imu = -1 ∧
      (resetParams s).doneFirstOpt = false ∧
      (resetParams s).systemInitialized = false) ∧
    (initState.lastImuT_imu = -1 ∧ initState.doneFirstOpt = false) ∧
    (∀ (o : Oracle) (cfg : Config) (m : ImuMsg) (s : State), s.doneFirstOpt = false →
      (imuHandler o cfg m s).1.lastImuT_imu = s.lastImuT_imu ∧
      (imuHandler o cfg m s).1.imuIntegratorImu = s.imuIntegratorImu ∧
      (imuHandler o cfg m s).2 = none) ∧
    (∀ (o : Oracle) (cfg : Config) (m : ImuMsg) (s : State),
      s.doneFirstOpt = true → s.lastImuT_imu < 0 →
      (imuHandler o cfg m s).1.imuIntegratorImu.meas =
        s.imuIntegratorImu.meas ++ [(m.acc, m.gyr, 1/500)] ∧
      (imuHandler o cfg m s).1.lastImuT_imu = m.stamp) := by
  refine ⟨fun s => ⟨rfl, rfl, rfl⟩, ⟨rfl, rfl⟩, ?_, ?_⟩
  · intro o cfg m s h
    simp [imuHandler, h]
  · intro o cfg m s h hneg
    simp [imuHandler, h, hneg, Preint.integrateMeasurement]

/-- C7: after the first optimization has completed, every inertial sample
makes `imuHandler` emit a message whose linear velocity is the velocity of
the forward preintegrator's `predict(prevStateOdom, prevBiasOdom)` and whose
angular velocity is the (frame-transformed) gyroscope reading plus - not
minus - the current gyroscope bias estimate, component-wise. -/
theorem emitted_twist_fields (o : Oracle) (cfg : Config) (m : ImuMsg) (s : State)
    (h : s.doneFirstOpt = true) :
    ∃ out : OdomOut, (imuHandler o cfg m s).2 = some out ∧
      out.linVel =
        (o.predict (imuHandler o cfg m s).1.imuIntegratorImu s.prevStateOdom s.prevBiasOdom).vel ∧
      out.angVel = ⟨m.gyr.x + s.prevBiasOdom.gyr.x,
                    m.gyr.y + s.prevBiasOdom.gyr.y,
                    m.gyr.z + s.prevBiasOdom.gyr.z⟩ := by
  simp only [imuHandler, h]
  exact ⟨_, rfl, rfl, rfl⟩

/-- C2 (amended): neither integration path checks the sign of `dt`.  After
the first optimization, `imuHandler` integrates every sample with
`dt = lastImuT_imu < 0 ? 1/500 : stamp - lastImuT_imu` even when that value
is zero or negative; and the optimization drain integrates every queued
sample older than the lidar timestamp with its computed `dt`, whatever its
sign.  No sample is dropped by either path. -/
theorem nonpositive_dt_still_integrated :
    (∀ (o : Oracle) (cfg : Config) (m : ImuMsg) (s : State), s.doneFirstOpt = true →
      (imuHandler o cfg m s).1.imuIntegratorImu.meas =
        s.imuIntegratorImu.meas ++
          [(m.acc, m.gyr, if s.lastImuT_imu < 0 then 1/500 else m.stamp - s.lastImuT_imu)]) ∧
    (∀ (l : List ImuMsg) (p : Preint) (last t : ℚ),
      (drainIntegrate l p last t).2.1 =
        ⟨p.biasRef, p.meas ++ dtList (l.takeWhile fun m => decide (m.stamp < t)) last⟩) := by
  refine ⟨?_, drainIntegrate_preint⟩
  intro o cfg m s h
  by_cases hneg : s.lastImuT_imu < 0 <;>
    simp [imuHandler, h, hneg, Preint.integrateMeasurement]

theorem optimizeStep_fields (o : Oracle) (cfg : Config) (msg : OdomMsg) (s : State) :
    (optimizeStep o cfg msg s).imuQueOpt =
        (drainIntegrate s.imuQueOpt s.imuIntegratorOpt s.lastImuT_opt msg.stamp).1 ∧
    (optimizeStep o cfg msg s).imuQueImu = s.imuQueImu ∧
    (optimizeStep o cfg msg s).imuIntegratorImu = s.imuIntegratorImu ∧
    (optimizeStep o cfg msg s).prevStateOdom = s.prevStateOdom ∧
    (optimizeStep o cfg msg s).prevBiasOdom = s.prevBiasOdom ∧
    (optimizeStep o cfg msg s).key = s.key ∧
    (optimizeStep o cfg msg s).lastImuT_imu = s.lastImuT_imu ∧
    (optimizeStep o cfg msg s).imuIntegratorOpt.biasRef = (optimizeStep o cfg msg s).prevBias ∧
    (optimizeStep o cfg msg s).prevState =
      ⟨(optimizeStep o cfg msg s).prevPose, (optimizeStep o cfg msg s).prevVel⟩ := by
  exact ⟨rfl, rfl, rfl, rfl, rfl, rfl, rfl, rfl, rfl⟩

theorem graphReset_fields (o : Oracle) (s : State) :
    (graphReset o s).imuQueOpt = s.imuQueOpt ∧
    (graphReset o s).imuQueImu = s.imuQueImu ∧
    (graphReset o s).imuIntegratorOpt = s.imuIntegratorOpt ∧
    (graphReset o s).imuIntegratorImu = s.imuIntegratorImu ∧
    (graphReset o s).prevStateOdom = s.prevStateOdom ∧
    (graphReset o s).prevBiasOdom = s.prevBiasOdom ∧
    (graphReset o s).prevState = s.prevState ∧
    (graphReset o s).prevBias = s.prevBias ∧
    (graphReset o s).lastImuT_opt = s.lastImuT_opt ∧
    (graphReset o s).key = 1 := by
  exact ⟨rfl, rfl, rfl, rfl, rfl, rfl, rfl, rfl, rfl, rfl⟩

theorem handoffStep_fields (t : ℚ) (s : State) :
    (handoffStep t s).imuQueOpt = s.imuQueOpt ∧
    (handoffStep t s).optimizer = s.optimizer ∧
    (handoffStep t s).prevBias = s.prevBias ∧
    (handoffStep t s).imuIntegratorOpt = s.imuIntegratorOpt ∧
    (handoffStep t s).key = s.key ∧
    (handoffStep t s).imuQueImu = (drainImuQ s.imuQueImu (-1) t).1 ∧
    (handoffStep t s).prevStateOdom = s.prevState ∧
    (handoffStep t s).prevBiasOdom = s.prevBias := by
  simp only [handoffStep]
  split <;> exact ⟨rfl, rfl, rfl, rfl, rfl, rfl, rfl, rfl⟩

theorem handoffStep_integrator (t : ℚ) (s : State) :
    ((drainImuQ s.imuQueImu (-1) t).1 = [] →
        (handoffStep t s).imuIntegratorImu = s.imuIntegratorImu) ∧
    ((drainImuQ s.imuQueImu (-1) t).1 ≠ [] →
        (handoffStep t s).imuIntegratorImu =
          ⟨s.prevBias,
           dtList (drainImuQ s.imuQueImu (-1) t).1 (drainImuQ s.imuQueImu (-1) t).2⟩) := by
  simp only [handoffStep]
  split
  case isTrue h => exact ⟨fun _ => rfl, fun hne => absurd h hne⟩
  case isFalse h =>
    refine ⟨fun he => absurd he h, fun _ => ?_⟩
    rw [repropagate_eq]
    simp [Preint.resetIntegrationAndSetBias]

theorem odometryHandler_main (o : Oracle) (cfg : Config) (msg : OdomMsg) (s : State)
    (h1 : s.systemInitialized = true) (h2 : s.imuQueOpt ≠ []) :
    odometryHandler o cfg msg s =
      processAfterReset o cfg msg (if s.key = 100 then graphReset o s else s) := by
  rw [odometryHandler, if_neg h2, if_neg (by simp [h1])]

/-- C6: after any call to `odometryHandler` on a queue with non-decreasing
timestamps, the optimization queue `imuQueOpt` holds no sample whose
timestamp is strictly below the lidar timestamp, in every branch (drop,
initialization, graph reset, normal, failure). -/
theorem queue_hygiene (o : Oracle) (cfg : Config) (msg : OdomMsg) (s : State)
    (hs : List.Pairwise (fun a b => a.stamp ≤ b.stamp) s.imuQueOpt) :
    ∀ m ∈ (odometryHandler o cfg msg s).1.imuQueOpt, msg.stamp ≤ m.stamp := by
  by_cases he : s.imuQueOpt = []
  · rw [odometryHandler, if_pos he]
    simp [he]
  · by_cases hi : s.systemInitialized = true
    · rw [odometryHandler_main o cfg msg s hi he]
      set sMid := if s.key = 100 then graphReset o s else s with hM
      have hq : sMid.imuQueOpt = s.imuQueOpt := by
        by_cases hk : s.key = 100 <;> simp [hM, hk, graphReset]
      have hpq : (processAfterReset o cfg msg sMid).1.imuQueOpt =
          (optimizeStep o cfg msg sMid).imuQueOpt := by
        simp only [processAfterReset]
        split
        · rfl
        · exact (handoffStep_fields msg.stamp (optimizeStep o cfg msg sMid)).1
      simp only [hpq, (optimizeStep_fields o cfg msg sMid).1, hq]
      intro m hm
      exact drainIntegrate_ge _ _ _ _ hs m hm
    · rw [odometryHandler, if_neg he, if_pos (by simpa using hi)]
      intro m hm
      exact drainInit_ge _ _ _ hs m (by simpa [initBranch] using hm)

/-- C8: when the failure check fires, `odometryHandler` returns before the
hand-off: the forward-propagator seed `(prevStateOdom, prevBiasOdom)`, the
queue `imuQueImu` and the forward preintegrator are exactly as at entry, the
key counter still has its pre-optimization value (1 if the key-100 reset ran,
the entry value otherwise), and `doneFirstOpt` is cleared, so a divergent
optimized state is never handed to the forward propagator. -/
theorem failure_skips_handoff (o : Oracle) (cfg : Config) (msg : OdomMsg) (s : State)
    (h1 : s.systemInitialized = true) (h2 : s.imuQueOpt ≠ [])
    (h3 : (odometryHandler o cfg msg s).2 = Branch.failed) :
    (odometryHandler o cfg msg s).1.prevStateOdom = s.prevStateOdom ∧
    (odometryHandler o cfg msg s).1.prevBiasOdom = s.prevBiasOdom ∧
    (odometryHandler o cfg msg s).1.imuQueImu = s.imuQueImu ∧
    (odometryHandler o cfg msg s).1.imuIntegratorImu = s.imuIntegratorImu ∧
    (odometryHandler o cfg msg s).1.key = (if s.key = 100 then 1 else s.key) ∧
    (odometryHandler o cfg msg s).1.doneFirstOpt = false := by
  rw [odometryHandler_main o cfg msg s h1 h2] at h3 ⊢
  set sMid := if s.key = 100 then graphReset o s else s with hM
  obtain ⟨hq, hqi, hii, hpso, hpbo, hk, hlti, hbr, hps⟩ := optimizeStep_fields o cfg msg sMid
  have hMid : sMid.imuQueImu = s.imuQueImu ∧ sMid.imuIntegratorImu = s.imuIntegratorImu ∧
      sMid.prevStateOdom = s.prevStateOdom ∧ sMid.prevBiasOdom = s.prevBiasOdom ∧
      sMid.key = (if s.key = 100 then 1 else s.key) := by
    by_cases hkk : s.key = 100 <;> simp [hM, hkk, graphReset]
  have hf : failureDetection (optimizeStep o cfg msg sMid).prevVel
      (optimizeStep o cfg msg sMid).prevBias = true := by
    by_contra hfn
    simp only [Bool.not_eq_true] at hfn
    simp [processAfterReset, hfn] at h3
  have hres : (processAfterReset o cfg msg sMid).1 =
      resetParams (optimizeStep o cfg msg sMid) := by
    simp [processAfterReset, hf]
  rw [hres]
  exact ⟨hpso.trans hMid.2.2.1, hpbo.trans hMid.2.2.2.1, hqi.trans hMid.1,
    hii.trans hMid.2.1, hk.trans hMid.2.2.2.2, rfl⟩

/-- C1 (amended): on every optimization pass that reaches the hand-off (the
`normal` branch), the optimization preintegrator has been reset with the
newly optimized bias, and `imuQueImu` has been drained of entries older than
the lidar timestamp.  The forward preintegrator is then reset with that same
optimized bias and re-integrates, in order, every sample remaining in
`imuQueImu` - but only when the drained queue is non-empty; when `imuQueImu`
is empty after the drain, the reset is skipped and the forward preintegrator
is left exactly as it was. -/
theorem forward_repropagation_guarded (o : Oracle) (cfg : Config) (msg : OdomMsg)
    (s : State) (h1 : s.systemInitialized = true) (h2 : s.imuQueOpt ≠ [])
    (h3 : (odometryHandler o cfg msg s).2 = Branch.normal) :
    (odometryHandler o cfg msg s).1.imuIntegratorOpt.biasRef =
      (odometryHandler o cfg msg s).1.prevBias ∧
    (odometryHandler o cfg msg s).1.imuQueImu =
      (drainImuQ s.imuQueImu (-1) msg.stamp).1 ∧
    ((drainImuQ s.imuQueImu (-1) msg.stamp).1 = [] →
      (odometryHandler o cfg msg s).1.imuIntegratorImu = s.imuIntegratorImu) ∧
    ((drainImuQ s.imuQueImu (-1) msg.stamp).1 ≠ [] →
      (odometryHandler o cfg msg s).1.imuIntegratorImu =
        ⟨(odometryHandler o cfg msg s).1.prevBias,
         dtList (drainImuQ s.imuQueImu (-1) msg.stamp).1
           (drainImuQ s.imuQueImu (-1) msg.stamp).2⟩) := by
  rw [odometryHandler_main o cfg msg s h1 h2] at h3 ⊢
  set sMid := if s.key = 100 then graphReset o s else s with hM
  obtain ⟨hq, hqi, hii, hpso, hpbo, hk, hlti, hbr, hps⟩ := optimizeStep_fields o cfg msg sMid
  have hMidQ : sMid.imuQueImu = s.imuQueImu ∧ sMid.imuIntegratorImu = s.imuIntegratorImu := by
    by_cases hkk : s.key = 100 <;> simp [hM, hkk, graphReset]
  have hf : failureDetection (optimizeStep o cfg msg sMid).prevVel
      (optimizeStep o cfg msg sMid).prevBias = false := by
    by_contra hfn
    simp only [Bool.not_eq_false] at hfn
    simp [processAfterReset, hfn] at h3
  have hres : (processAfterReset o cfg msg sMid).1 =
      { handoffStep msg.stamp (optimizeStep o cfg msg sMid) with
        key := (handoffStep msg.stamp (optimizeStep o cfg msg sMid)).key + 1
        doneFirstOpt := true } := by
    simp [processAfterReset, hf]
  rw [hres]
  obtain ⟨hhq, hho, hhb, hhio, hhk, hhqi, hhso, hhbo⟩ :=
    handoffStep_fields msg.stamp (optimizeStep o cfg msg sMid)
  obtain ⟨hie, hine⟩ := handoffStep_integrator msg.stamp (optimizeStep o cfg msg sMid)
  have hqs : (optimizeStep o cfg msg sMid).imuQueImu = s.imuQueImu := hqi.trans hMidQ.1
  refine ⟨?_, ?_, ?_, ?_⟩
  · show (handoffStep msg.stamp (optimizeStep o cfg msg sMid)).imuIntegratorOpt.biasRef =
      (handoffStep msg.stamp (optimizeStep o cfg msg sMid)).prevBias
    rw [hhb, hhio, hbr]
  · show (handoffStep msg.stamp (optimizeStep o cfg msg sMid)).imuQueImu = _
    rw [hhqi, hqs]
  · intro he
    show (handoffStep msg.stamp (optimizeStep o cfg msg sMid)).imuIntegratorImu = _
    rw [hie (by rw [hqs]; exact he)]
    rw [hii, hMidQ.2]
  · intro hne
    show (handoffStep msg.stamp (optimizeStep o cfg msg sMid)).imuIntegratorImu = _
    rw [hine (by rw [hqs]; exact hne)]
    show _ = Preint.mk ((handoffStep msg.stamp (optimizeStep o cfg msg sMid)).prevBias) _
    rw [hhb, hqs]

/-- C3: when `odometryHandler` runs while the keyframe counter equals 100,
it first captures the marginal covariances of `X(99)`, `V(99)`, `B(99)` from
the current smoother, constructs a fresh smoother, adds Gaussian priors at
index 0 on `(prevPose, prevVel, prevBias)` with exactly those covariances,
inserts those same values, runs exactly one smoother update, and sets the
key counter back to 1, before processing the current lidar pose. -/
theorem graph_reset_at_hundred (o : Oracle) (cfg : Config) (msg : OdomMsg) (s : State)
    (h1 : s.systemInitialized = true) (h2 : s.imuQueOpt ≠ []) (hk : s.key = 100) :
    odometryHandler o cfg msg s = processAfterReset o cfg msg (graphReset o s) ∧
    (graphReset o s).optimizer = ⟨⟨1/10, 1⟩,
      [([Factor.priorPose (GSym.X 0) s.prevPose
           (Noise.gaussianCov (o.margCov s.optimizer (GSym.X 99))),
         Factor.priorVel (GSym.V 0) s.prevVel
           (Noise.gaussianCov (o.margCov s.optimizer (GSym.V 99))),
         Factor.priorBias (GSym.B 0) s.prevBias
           (Noise.gaussianCov (o.margCov s.optimizer (GSym.B 99)))],
        [GVal.iPose (GSym.X 0) s.prevPose,
         GVal.iVel (GSym.V 0) s.prevVel,
         GVal.iBias (GSym.B 0) s.prevBias])]⟩ ∧
    (graphReset o s).key = 1 ∧
    (graphReset o s).prevPose = s.prevPose ∧
    (graphReset o s).prevVel = s.prevVel ∧
    (graphReset o s).prevBias = s.prevBias := by
  refine ⟨?_, ?_, rfl, rfl, rfl, rfl⟩
  · rw [odometryHandler_main o cfg msg s h1 h2, if_pos hk]
  · simp [graphReset, hk, ISAM2.update, freshISAM2]

/-- C5: in the normal (initialized, non-reset) path, the lidar pose prior
added on `X(key)` is the incoming pose composed with the fixed
`lidar2Imu` transform; its noise model is the nominal correction
covariance (diagonal sigmas 0.05, 0.05, 0.05, 0.1, 0.1, 0.1) unless the
first element of the message covariance, cast to `int`, equals 1, in which
case the degenerate covariance (all sigmas 1) is used. -/
theorem pose_prior_selection (o : Oracle) (cfg : Config) (msg : OdomMsg) (s : State)
    (h1 : s.systemInitialized = true) (h2 : s.imuQueOpt ≠ []) (hk : s.key ≠ 100) :
    ∃ fs vs, (odometryHandler o cfg msg s).1.optimizer.updates =
        s.optimizer.updates ++ [(fs, vs), ([], [])] ∧
      fs.length = 3 ∧
      fs.getLast? = some (Factor.priorPose (GSym.X s.key)
        (Pose3.compose ⟨msg.quat, msg.pos⟩ (lidar2Imu cfg))
        (if ratTruncToInt msg.cov0 = 1 then correctionNoise2 else correctionNoise)) ∧
      correctionNoise = Noise.diagSigmas [1/20, 1/20, 1/20, 1/10, 1/10, 1/10] ∧
      correctionNoise2 = Noise.diagSigmas [1, 1, 1, 1, 1, 1] := by
  rw [odometryHandler_main o cfg msg s h1 h2, if_neg hk]
  have hopt : (processAfterReset o cfg msg s).1.optimizer =
      (optimizeStep o cfg msg s).optimizer := by
    simp only [processAfterReset]
    split
    · rfl
    · exact (handoffStep_fields msg.stamp (optimizeStep o cfg msg s)).2.1
  refine ⟨[Factor.imuFactor (GSym.X (s.key - 1)) (GSym.V (s.key - 1)) (GSym.X s.key)
             (GSym.V s.key) (GSym.B (s.key - 1))
             (drainIntegrate s.imuQueOpt s.imuIntegratorOpt s.lastImuT_opt msg.stamp).2.1,
           Factor.biasBetween (GSym.B (s.key - 1)) (GSym.B s.key) zeroBias
             (Noise.diagSqrtScaled
               (drainIntegrate s.imuQueOpt s.imuIntegratorOpt s.lastImuT_opt msg.stamp).2.1.deltaTij
               (noiseModelBetweenBias cfg)),
           Factor.priorPose (GSym.X s.key)
             (Pose3.compose ⟨msg.quat, msg.pos⟩ (lidar2Imu cfg))
             (if ratTruncToInt msg.cov0 = 1 then correctionNoise2 else correctionNoise)],
          [GVal.iPose (GSym.X s.key)
             (o.predict (drainIntegrate s.imuQueOpt s.imuIntegratorOpt s.lastImuT_opt msg.stamp).2.1
               s.prevState s.prevBias).pose,
           GVal.iVel (GSym.V s.key)
             (o.predict (drainIntegrate s.imuQueOpt s.imuIntegratorOpt s.lastImuT_opt msg.stamp).2.1
               s.prevState s.prevBias).vel,
           GVal.iBias (GSym.B s.key) s.prevBias], ?_, rfl, rfl, rfl, rfl⟩
  rw [hopt]
  simp [ISAM2.update, optimizeStep, decide_eq_true_eq]

/-! ## Counterexamples and witnesses -/

/-- C1 counterexample: a successful optimization pass (branch `normal`) in
which the hand-off drain empties `imuQueImu`: the forward preintegrator is
left untouched, so its reference bias differs from the newly optimized bias
instead of being reset with it. -/
theorem forward_reset_skipped_cx :
    (odometryHandler oracleC cfgC odomC stateEmptyQimu).2 = Branch.normal ∧
    (odometryHandler oracleC cfgC odomC stateEmptyQimu).1.imuIntegratorImu =
      stateEmptyQimu.imuIntegratorImu ∧
    (odometryHandler oracleC cfgC odomC stateEmptyQimu).1.imuIntegratorImu.biasRef ≠
      (odometryHandler oracleC cfgC odomC stateEmptyQimu).1.prevBias := by
  norm_num [odometryHandler, processAfterReset, optimizeStep, handoffStep, drainIntegrate,
    drainImuQ, repropagate, failureDetection, resetParams, graphReset, initBranch,
    oracleC, cfgC, odomC, stateEmptyQimu, imuOld, initState, normSq, zeroV3, zeroBias,
    idQuat, freshISAM2, ISAM2.update, Preint.integrateMeasurement,
    Preint.resetIntegrationAndSetBias, Preint.deltaTij, ratTruncToInt]

/-- C1 witness: concrete run of the amended hand-off theorem on a state whose
`imuQueImu` stays non-empty after the drain. -/
theorem forward_repropagation_guarded_witness :
    (odometryHandler oracleC cfgC odomC stateC).1.imuIntegratorOpt.biasRef =
      (odometryHandler oracleC cfgC odomC stateC).1.prevBias ∧
    (odometryHandler oracleC cfgC odomC stateC).1.imuQueImu =
      (drainImuQ stateC.imuQueImu (-1) odomC.stamp).1 ∧
    ((drainImuQ stateC.imuQueImu (-1) odomC.stamp).1 = [] →
      (odometryHandler oracleC cfgC odomC stateC).1.imuIntegratorImu =
        stateC.imuIntegratorImu) ∧
    ((drainImuQ stateC.imuQueImu (-1) odomC.stamp).1 ≠ [] →
      (odometryHandler oracleC cfgC odomC stateC).1.imuIntegratorImu =
        ⟨(odometryHandler oracleC cfgC odomC stateC).1.prevBias,
         dtList (drainImuQ stateC.imuQueImu (-1) odomC.stamp).1
           (drainImuQ stateC.imuQueImu (-1) odomC.stamp).2⟩) :=
  forward_repropagation_guarded oracleC cfgC odomC stateC rfl
    (by simp [stateC, initState])
    (by norm_num [odometryHandler, processAfterReset, optimizeStep, handoffStep,
      drainIntegrate, drainImuQ, repropagate, failureDetection, resetParams, graphReset,
      initBranch, oracleC, cfgC, odomC, stateC, imuOld, imuNew, initState, normSq, zeroV3,
      zeroBias, idQuat, freshISAM2, ISAM2.update, Preint.integrateMeasurement,
      Preint.resetIntegrationAndSetBias, Preint.deltaTij, ratTruncToInt])

/-- C2 counterexample: `lastImuT_imu = 2` and a sample also stamped 2 give
`dt = 0`, yet `imuHandler` does not drop the sample - it is integrated into
the forward preintegrator with `dt = 0`. -/
theorem dt_zero_not_dropped_cx :
    (imuHandler oracleC cfgC imuNew stateDt0).1.imuIntegratorImu.meas =
      stateDt0.imuIntegratorImu.meas ++ [(imuNew.acc, imuNew.gyr, 0)] := by
  norm_num [imuHandler, oracleC, cfgC, imuNew, stateDt0, stateC, initState, imuOld,
    zeroBias, zeroV3, idQuat, Preint.integrateMeasurement]

/-- C2 witness: the amended no-drop theorem applied at the `dt = 0` input. -/
theorem nonpositive_dt_still_integrated_witness :
    (imuHandler oracleC cfgC imuNew stateDt0).1.imuIntegratorImu.meas =
      stateDt0.imuIntegratorImu.meas ++
        [(imuNew.acc, imuNew.gyr,
          if stateDt0.lastImuT_imu < 0 then 1/500
          else imuNew.stamp - stateDt0.lastImuT_imu)] :=
  nonpositive_dt_still_integrated.1 oracleC cfgC imuNew stateDt0 rfl

/-- C3 witness: concrete run of the key-100 graph reset. -/
theorem graph_reset_at_hundred_witness :
    odometryHandler oracleC cfgC odomC stateK100 =
      processAfterReset oracleC cfgC odomC (graphReset oracleC stateK100) ∧
    (graphReset oracleC stateK100).optimizer = ⟨⟨1/10, 1⟩,
      [([Factor.priorPose (GSym.X 0) stateK100.prevPose
           (Noise.gaussianCov (oracleC.margCov stateK100.optimizer (GSym.X 99))),
         Factor.priorVel (GSym.V 0) stateK100.prevVel
           (Noise.gaussianCov (oracleC.margCov stateK100.optimizer (GSym.V 99))),
         Factor.priorBias (GSym.B 0) stateK100.prevBias
           (Noise.gaussianCov (oracleC.margCov stateK100.optimizer (GSym.B 99)))],
        [GVal.iPose (GSym.X 0) stateK100.prevPose,
         GVal.iVel (GSym.V 0) stateK100.prevVel,
         GVal.iBias (GSym.B 0) stateK100.prevBias])]⟩ ∧
    (graphReset oracleC stateK100).key = 1 ∧
    (graphReset oracleC stateK100).prevPose = stateK100.prevPose ∧
    (graphReset oracleC stateK100).prevVel = stateK100.prevVel ∧
    (graphReset oracleC stateK100).prevBias = stateK100.prevBias :=
  graph_reset_at_hundred oracleC cfgC odomC stateK100 rfl
    (by simp [stateK100, stateC, initState]) rfl

/-- C4 witness: a velocity of norm 31 trips the check, and with the failing
oracle the handler resets its parameters and returns `failed`. -/
theorem failureDetection_spec_witness :
    failureDetection ⟨31, 0, 0⟩ zeroBias = true ∧
    odometryHandler oracleFail cfgC odomC stateC =
      (resetParams (optimizeStep oracleFail cfgC odomC
        (if stateC.key = 100 then graphReset oracleFail stateC else stateC)),
       Branch.failed) :=
  ⟨(failureDetection_spec.1 ⟨31, 0, 0⟩ zeroBias).mpr (Or.inl (by
      rw [show ((normSq ⟨31, 0, 0⟩ : ℚ) : ℝ) = 961 by norm_num [normSq]]
      rw [show (961 : ℝ) = 31 ^ 2 by norm_num, Real.sqrt_sq (by norm_num)]
      norm_num)),
   failureDetection_spec.2 oracleFail cfgC odomC stateC rfl
     (by simp [stateC, initState])
     (by norm_num [optimizeStep, drainIntegrate, failureDetection, graphReset,
       oracleFail, cfgC, odomC, stateC, imuOld, imuNew, initState, normSq, zeroV3,
       zeroBias, idQuat, freshISAM2, ISAM2.update, Preint.integrateMeasurement,
       Preint.resetIntegrationAndSetBias, Preint.deltaTij, ratTruncToInt])⟩

/-- C5 witness: concrete run of the pose-prior selection theorem. -/
theorem pose_prior_selection_witness :
    ∃ fs vs, (odometryHandler oracleC cfgC odomC stateC).1.optimizer.updates =
        stateC.optimizer.updates ++ [(fs, vs), ([], [])] ∧
      fs.length = 3 ∧
      fs.getLast? = some (Factor.priorPose (GSym.X stateC.key)
        (Pose3.compose ⟨odomC.quat, odomC.pos⟩ (lidar2Imu cfgC))
        (if ratTruncToInt odomC.cov0 = 1 then correctionNoise2 else correctionNoise)) ∧
      correctionNoise = Noise.diagSigmas [1/20, 1/20, 1/20, 1/10, 1/10, 1/10] ∧
      correctionNoise2 = Noise.diagSigmas [1, 1, 1, 1, 1, 1] :=
  pose_prior_selection oracleC cfgC odomC stateC rfl
    (by simp [stateC, initState]) (by simp [stateC, initState])

/-- C6 witness: with a sorted queue holding one old and one new sample, the
new sample survives the drain and its timestamp is at least the lidar
timestamp. -/
theorem queue_hygiene_witness : odomC.stamp ≤ imuNew.stamp :=
  queue_hygiene oracleC cfgC odomC stateQ
    (by norm_num [stateQ, stateC, initState, imuOld, imuNew, List.pairwise_cons])
    imuNew
    (by
      norm_num [odometryHandler, processAfterReset, optimizeStep, handoffStep,
        drainIntegrate, drainImuQ, repropagate, failureDetection, resetParams, graphReset,
        initBranch, oracleC, cfgC, odomC, stateQ, stateC, imuOld, imuNew, initState, normSq,
        zeroV3, zeroBias, idQuat, freshISAM2, ISAM2.update, Preint.integrateMeasurement,
        Preint.resetIntegrationAndSetBias, Preint.deltaTij, ratTruncToInt]
      simp)

/-- C7 witness: concrete emission after the first optimization. -/
theorem emitted_twist_fields_witness :
    ∃ out : OdomOut, (imuHandler oracleC cfgC imuNew stateBoot).2 = some out ∧
      out.linVel = (oracleC.predict (imuHandler oracleC cfgC imuNew stateBoot).1.imuIntegratorImu
        stateBoot.prevStateOdom stateBoot.prevBiasOdom).vel ∧
      out.angVel = ⟨imuNew.gyr.x + stateBoot.prevBiasOdom.gyr.x,
                    imuNew.gyr.y + stateBoot.prevBiasOdom.gyr.y,
                    imuNew.gyr.z + stateBoot.prevBiasOdom.gyr.z⟩ :=
  emitted_twist_fields oracleC cfgC imuNew stateBoot rfl

/-- C8 witness: with the failing oracle the handler leaves the forward state
untouched. -/
theorem failure_skips_handoff_witness :
    (odometryHandler oracleFail cfgC odomC stateC).1.prevStateOdom = stateC.prevStateOdom ∧
    (odometryHandler oracleFail cfgC odomC stateC).1.prevBiasOdom = stateC.prevBiasOdom ∧
    (odometryHandler oracleFail cfgC odomC stateC).1.imuQueImu = stateC.imuQueImu ∧
    (odometryHandler oracleFail cfgC odomC stateC).1.imuIntegratorImu =
      stateC.imuIntegratorImu ∧
    (odometryHandler oracleFail cfgC odomC stateC).1.key =
      (if stateC.key = 100 then 1 else stateC.key) ∧
    (odometryHandler oracleFail cfgC odomC stateC).1.doneFirstOpt = false :=
  failure_skips_handoff oracleFail cfgC odomC stateC rfl
    (by simp [stateC, initState])
    (by norm_num [odometryHandler, processAfterReset, optimizeStep, handoffStep,
      drainIntegrate, drainImuQ, repropagate, failureDetection, resetParams, graphReset,
      initBranch, oracleFail, cfgC, odomC, stateC, imuOld, imuNew, initState, normSq,
      zeroV3, zeroBias, idQuat, freshISAM2, ISAM2.update, Preint.integrateMeasurement,
      Preint.resetIntegrationAndSetBias, Preint.deltaTij, ratTruncToInt])

/-- C10 witness: right after the first optimization (with `lastImuT_imu`
still `-1`), the first forward sample is integrated with `dt = 1/500`. -/
theorem bootstrap_dt_after_reset_witness :
    (imuHandler oracleC cfgC imuNew stateBoot).1.imuIntegratorImu.meas =
      stateBoot.imuIntegratorImu.meas ++ [(imuNew.acc, imuNew.gyr, 1/500)] ∧
    (imuHandler oracleC cfgC imuNew stateBoot).1.lastImuT_imu = imuNew.stamp :=
  bootstrap_dt_after_reset.2.2.2 oracleC cfgC imuNew stateBoot rfl
    (by norm_num [stateBoot, stateC, initState])
